import Mathlib

/-!
Shallow embedding of the milestone-escrow backend
(`backend/app/conditions.py`, `backend/app/storage.py`,
`backend/app/escrows.py`, schema from `backend/app/db.py`).

Bytes are modelled as `Nat` values below 256; machine 32-bit arithmetic
in SHA-256 is `Nat` arithmetic reduced modulo `2 ^ 32`.  Each storage
function opens its own SQLite connection (`db_conn` in `db.py`), so a
store snapshot is passed explicitly to every storage call; the current
wall-clock time (`time.time()`) and the ledger gateway
(`xrpl.transaction.submit_and_wait`) are likewise explicit parameters.
-/

namespace Fintech

/-! ### Base64 (Python `base64.b64encode` / `base64.b64decode`, RFC 4648) -/

def b64Alphabet : List Char :=
  "ABCDEFGHIJKLMNOPQRSTUVWXYZabcdefghijklmnopqrstuvwxyz0123456789+/".toList

def b64Char (v : Nat) : Char := b64Alphabet.getD v 'A'

def b64Index (c : Char) : Nat := b64Alphabet.indexOf c

/-- Encode a byte list to base64 characters, 3 bytes per 4 sextets,
padding with `=` as `base64.b64encode` does. -/
def b64encodeBytes : List Nat → List Char
  | a :: b :: c :: rest =>
      b64Char (a / 4) :: b64Char (a % 4 * 16 + b / 16) ::
      b64Char (b % 16 * 4 + c / 64) :: b64Char (c % 64) :: b64encodeBytes rest
  | [a, b] =>
      [b64Char (a / 4), b64Char (a % 4 * 16 + b / 16), b64Char (b % 16 * 4), '=']
  | [a] =>
      [b64Char (a / 4), b64Char (a % 4 * 16), '=', '=']
  | [] => []

/-- Decode base64 characters back to bytes (valid input assumed, as
`base64.b64decode` on well-formed data). -/
def b64decodeChars : List Char → List Nat
  | w :: x :: y :: z :: rest =>
      if z = '=' then
        if y = '=' then
          [b64Index w * 4 + b64Index x / 16]
        else
          [b64Index w * 4 + b64Index x / 16, b64Index x % 16 * 16 + b64Index y / 4]
      else
        (b64Index w * 4 + b64Index x / 16) ::
        (b64Index x % 16 * 16 + b64Index y / 4) ::
        (b64Index y % 4 * 64 + b64Index z) :: b64decodeChars rest
  | _ => []

def b64encode (bs : List Nat) : String := String.mk (b64encodeBytes bs)

def b64decode (s : String) : List Nat := b64decodeChars s.toList

theorem b64Index_b64Char : ∀ v < 64, b64Index (b64Char v) = v := by decide

theorem b64Char_ne_eq : ∀ v < 64, b64Char v ≠ '=' := by decide

theorem b64_roundtrip :
    ∀ bs : List Nat, (∀ x ∈ bs, x < 256) → b64decodeChars (b64encodeBytes bs) = bs
  | [], _ => by simp [b64encodeBytes, b64decodeChars]
  | [a], h => by
      have ha : a < 256 := h a (by simp)
      have h1 : a / 4 < 64 := by omega
      have h2 : a % 4 * 16 < 64 := by omega
      show b64decodeChars [b64Char (a / 4), b64Char (a % 4 * 16), '=', '='] = [a]
      rw [b64decodeChars, if_pos rfl, if_pos rfl,
        b64Index_b64Char _ h1, b64Index_b64Char _ h2]
      simp only [List.cons.injEq, and_true]
      omega
  | [a, b], h => by
      have ha : a < 256 := h a (by simp)
      have hb : b < 256 := h b (by simp)
      have h1 : a / 4 < 64 := by omega
      have h2 : a % 4 * 16 + b / 16 < 64 := by omega
      have h3 : b % 16 * 4 < 64 := by omega
      have hne : b64Char (b % 16 * 4) ≠ '=' := b64Char_ne_eq _ h3
      show b64decodeChars
          [b64Char (a / 4), b64Char (a % 4 * 16 + b / 16), b64Char (b % 16 * 4), '='] = [a, b]
      rw [b64decodeChars, if_pos rfl, if_neg hne,
        b64Index_b64Char _ h1, b64Index_b64Char _ h2, b64Index_b64Char _ h3]
      simp only [List.cons.injEq, and_true]
      constructor
      · omega
      · omega
  | a :: b :: c :: rest, h => by
      have ha : a < 256 := h a (by simp)
      have hb : b < 256 := h b (by simp)
      have hc : c < 256 := h c (by simp)
      have h1 : a / 4 < 64 := by omega
      have h2 : a % 4 * 16 + b / 16 < 64 := by omega
      have h3 : b % 16 * 4 + c / 64 < 64 := by omega
      have h4 : c % 64 < 64 := by omega
      have hne : b64Char (c % 64) ≠ '=' := b64Char_ne_eq _ h4
      have ih := b64_roundtrip rest (fun x hx => h x (by simp [hx]))
      show b64decodeChars (b64Char (a / 4) :: b64Char (a % 4 * 16 + b / 16) ::
        b64Char (b % 16 * 4 + c / 64) :: b64Char (c % 64) :: b64encodeBytes rest) =
        a :: b :: c :: rest
      rw [b64decodeChars, if_neg hne, b64Index_b64Char _ h1, b64Index_b64Char _ h2,
        b64Index_b64Char _ h3, b64Index_b64Char _ h4, ih]
      simp only [List.cons.injEq, and_true]
      refine ⟨by omega, by omega, by omega⟩

theorem b64decode_b64encode (bs : List Nat) (h : ∀ x ∈ bs, x < 256) :
    b64decode (b64encode bs) = bs := by
  have : (b64encode bs).toList = b64encodeBytes bs := rfl
  rw [b64decode, this, b64_roundtrip bs h]

/-! ### SHA-256 (Python `hashlib.sha256`, FIPS 180-4)

Words are `Nat` values kept below `2 ^ 32` by reducing with `w32`. -/

def w32 (n : Nat) : Nat := n % 4294967296

def rotr (n w : Nat) : Nat := w32 ((w >>> n) ||| (w <<< (32 - n)))

def bnot32 (w : Nat) : Nat := w ^^^ 4294967295

def bsig0 (w : Nat) : Nat := rotr 2 w ^^^ rotr 13 w ^^^ rotr 22 w

def bsig1 (w : Nat) : Nat := rotr 6 w ^^^ rotr 11 w ^^^ rotr 25 w

def ssig0 (w : Nat) : Nat := rotr 7 w ^^^ rotr 18 w ^^^ (w >>> 3)

def ssig1 (w : Nat) : Nat := rotr 17 w ^^^ rotr 19 w ^^^ (w >>> 10)

def shaCh (e f g : Nat) : Nat := (e &&& f) ^^^ (bnot32 e &&& g)

def shaMaj (a b c : Nat) : Nat := (a &&& b) ^^^ (a &&& c) ^^^ (b &&& c)

def shaK : List Nat := [
  1116352408, 1899447441, 3049323471, 3921009573,
  961987163, 1508970993, 2453635748, 2870763221,
  3624381080, 310598401, 607225278, 1426881987,
  1925078388, 2162078206, 2614888103, 3248222580,
  3835390401, 4022224774, 264347078, 604807628,
  770255983, 1249150122, 1555081692, 1996064986,
  2554220882, 2821834349, 2952996808, 3210313671,
  3336571891, 3584528711, 113926993, 338241895,
  666307205, 773529912, 1294757372, 1396182291,
  1695183700, 1986661051, 2177026350, 2456956037,
  2730485921, 2820302411, 3259730800, 3345764771,
  3516065817, 3600352804, 4094571909, 275423344,
  430227734, 506948616, 659060556, 883997877,
  958139571, 1322822218, 1537002063, 1747873779,
  1955562222, 2024104815, 2227730452, 2361852424,
  2428436474, 2756734187, 3204031479, 3329325298]

/-- Merkle–Damgård padding: `0x80`, zeros to 56 mod 64, 8-byte
big-endian bit length. -/
def shaPad (msg : List Nat) : List Nat :=
  let l := msg.length
  let zeros := (119 - l % 64) % 64
  let bl := l * 8
  msg ++ 0x80 :: List.replicate zeros 0 ++
    [(bl >>> 56) % 256, (bl >>> 48) % 256, (bl >>> 40) % 256, (bl >>> 32) % 256,
     (bl >>> 24) % 256, (bl >>> 16) % 256, (bl >>> 8) % 256, bl % 256]

/-- Big-endian 4-byte groups to 32-bit words. -/
def toWords : List Nat → List Nat
  | b0 :: b1 :: b2 :: b3 :: rest =>
      (b0 * 16777216 + b1 * 65536 + b2 * 256 + b3) :: toWords rest
  | _ => []

/-- Split a word list into 16-word blocks. -/
def toBlocks : List Nat → List (List Nat)
  | [] => []
  | w :: ws => (w :: ws).take 16 :: toBlocks ((w :: ws).drop 16)
  termination_by ws => ws.length
  decreasing_by simp; omega

/-- One message-schedule extension step: `w[t]` from
`w[t-16], w[t-15], w[t-7], w[t-2]`. -/
def schedNext (ws : List Nat) : Nat :=
  let t := ws.length
  w32 (ssig1 (ws.getD (t - 2) 0) + ws.getD (t - 7) 0 +
       ssig0 (ws.getD (t - 15) 0) + ws.getD (t - 16) 0)

def extendSched : List Nat → Nat → List Nat
  | ws, 0 => ws
  | ws, n + 1 => extendSched (ws ++ [schedNext ws]) n

structure Hash8 where
  a : Nat
  b : Nat
  c : Nat
  d : Nat
  e : Nat
  f : Nat
  g : Nat
  h : Nat
deriving DecidableEq, Repr

def shaRound (st : Hash8) (kw : Nat × Nat) : Hash8 :=
  let t1 := w32 (st.h + bsig1 st.e + shaCh st.e st.f st.g + kw.1 + kw.2)
  let t2 := w32 (bsig0 st.a + shaMaj st.a st.b st.c)
  ⟨w32 (t1 + t2), st.a, st.b, st.c, w32 (st.d + t1), st.e, st.f, st.g⟩

def processBlock (st : Hash8) (block : List Nat) : Hash8 :=
  let ws := extendSched block 48
  let t := (shaK.zip ws).foldl shaRound st
  ⟨w32 (st.a + t.a), w32 (st.b + t.b), w32 (st.c + t.c), w32 (st.d + t.d),
   w32 (st.e + t.e), w32 (st.f + t.f), w32 (st.g + t.g), w32 (st.h + t.h)⟩

def shaH0 : Hash8 :=
  ⟨1779033703, 3144134277, 1013904242, 2773480762,
   1359893119, 2600822924, 528734635, 1541459225⟩

def wordBytes (w : Nat) : List Nat :=
  [(w >>> 24) % 256, (w >>> 16) % 256, (w >>> 8) % 256, w % 256]

/-- SHA-256 digest of a byte list, as 32 bytes. -/
def sha256 (msg : List Nat) : List Nat :=
  let st := (toBlocks (toWords (shaPad msg))).foldl processBlock shaH0
  wordBytes st.a ++ wordBytes st.b ++ wordBytes st.c ++ wordBytes st.d ++
  wordBytes st.e ++ wordBytes st.f ++ wordBytes st.g ++ wordBytes st.h

theorem sha256_length (msg : List Nat) : (sha256 msg).length = 32 := by
  simp [sha256, wordBytes]

theorem mem_wordBytes_lt (w x : Nat) (hx : x ∈ wordBytes w) : x < 256 := by
  simp [wordBytes] at hx
  rcases hx with h | h | h | h <;> omega

theorem sha256_bytes_lt (msg : List Nat) : ∀ x ∈ sha256 msg, x < 256 := by
  intro x hx
  simp only [sha256, List.mem_append] at hx
  rcases hx with ((((((h | h) | h) | h) | h) | h) | h) | h <;>
    exact mem_wordBytes_lt _ _ h

/-! ### `backend/app/conditions.py` -/

/-- `generate_condition_pair`: `secret = secrets.token_bytes(32)` is the
random input, passed explicitly; returns
`(base64(sha256(secret)), base64(secret))`. -/
def generate_condition_pair (secret : List Nat) : String × String :=
  let condition := sha256 secret
  (b64encode condition, b64encode secret)

/-! ### `backend/app/storage.py` (schema from `init_db` in `backend/app/db.py`) -/

/-- One row of the `milestones` table. `status` is TEXT in the schema;
the code only ever writes `"LOCKED"` and `"RELEASED"`. -/
structure Milestone where
  escrow_tx_hash : String
  owner_address : String
  offer_sequence : Int
  fulfillment_b64 : String
  status : String
  created_at : Int
  released_tx_hash : Option String
  released_at : Option Int
deriving DecidableEq, Repr

abbrev Store := List Milestone

/-- The WHERE key used by `get_fulfillment` and `mark_released`. -/
def matchesKey (owner_address : String) (offer_sequence : Int) (r : Milestone) : Bool :=
  r.owner_address == owner_address && r.offer_sequence == offer_sequence

/-- `save_milestone` raises `sqlite3.IntegrityError` when the INSERT hits
the UNIQUE index `idx_milestone_owner_seq` on
`(owner_address, offer_sequence)`; `db_conn` then skips the commit, so
the store is unchanged. -/
inductive SaveError where
  | duplicateKey
deriving DecidableEq, Repr

/-- `save_milestone(escrow_tx_hash, owner_address, offer_sequence,
fulfillment_b64)`: INSERT of a LOCKED row with `created_at = now`. -/
def save_milestone (escrow_tx_hash owner_address : String) (offer_sequence : Int)
    (fulfillment_b64 : String) (now : Int) (s : Store) : Except SaveError Store :=
  if s.any (matchesKey owner_address offer_sequence) then
    .error .duplicateKey
  else
    .ok (s ++ [⟨escrow_tx_hash, owner_address, offer_sequence, fulfillment_b64,
               "LOCKED", now, none, none⟩])

/-- `get_fulfillment`: SELECT `fulfillment_b64` WHERE owner, sequence and
`status = 'LOCKED'` match; `fetchone` takes the first such row. -/
def get_fulfillment (owner_address : String) (offer_sequence : Int) (s : Store) :
    Option String :=
  (s.find? fun r =>
      matchesKey owner_address offer_sequence r && r.status == "LOCKED").map
    (fun r => r.fulfillment_b64)

/-- `mark_released`: UPDATE `status`, `released_tx_hash`, `released_at`
WHERE owner and sequence match.  The WHERE clause has no status filter
and the function returns `None` (no row count is read). -/
def mark_released (owner_address : String) (offer_sequence : Int)
    (released_tx_hash : String) (now : Int) (s : Store) : Store :=
  s.map fun r =>
    if matchesKey owner_address offer_sequence r then
      { r with status := "RELEASED", released_tx_hash := some released_tx_hash,
               released_at := some now }
    else r

/-- Row shape returned by `list_milestones`: every column except
`fulfillment_b64` (and the surrogate `id`). -/
structure MilestoneSummary where
  escrow_tx_hash : String
  owner_address : String
  offer_sequence : Int
  status : String
  created_at : Int
  released_tx_hash : Option String
  released_at : Option Int
deriving DecidableEq, Repr

def summarize (r : Milestone) : MilestoneSummary :=
  ⟨r.escrow_tx_hash, r.owner_address, r.offer_sequence, r.status,
   r.created_at, r.released_tx_hash, r.released_at⟩

/-- `list_milestones`: SELECT of the summary columns
`ORDER BY created_at DESC`, no LIMIT. -/
def list_milestones (s : Store) : List MilestoneSummary :=
  (s.map summarize).mergeSort (fun a b => b.created_at ≤ a.created_at)

/-- Uniqueness invariant enforced by the UNIQUE index
`idx_milestone_owner_seq` in `init_db`. -/
def UniqueKeys (s : Store) : Prop :=
  List.Pairwise
    (fun a b => ¬(a.owner_address = b.owner_address ∧ a.offer_sequence = b.offer_sequence))
    s

/-! ### `backend/app/escrows.py`

The XRPL library is external: wallet derivation is modelled by passing
the employer's classic address, and `submit_and_wait` by a function
parameter from the transaction to an `Except` outcome.  Each storage
call runs in its own SQLite connection, so `approve_milestone` takes
the store snapshot seen by `get_fulfillment` and the snapshot seen by
`mark_released` separately (they coincide in a race-free run). -/

/-- `submit_and_wait` raising (network error, rejection, timeout). -/
inductive LedgerError where
  | submitFailed (msg : String)
deriving DecidableEq, Repr

/-- The fields of `resp.result` the code reads: `hash`,
`Sequence`, and `tx_json.Sequence`. -/
structure SubmitResult where
  hash : String
  sequence : Option Int
  txJsonSequence : Option Int
deriving DecidableEq, Repr

/-- `xrpl.models.transactions.EscrowCreate` as constructed at
`escrows.py:18-23`: account, destination, amount, condition — and no
fulfillment field. -/
structure EscrowCreateTx where
  account : String
  destination : String
  amount : String
  condition : String
deriving DecidableEq, Repr

/-- `xrpl.models.transactions.EscrowFinish` as constructed at
`escrows.py:60-65`. -/
structure EscrowFinishTx where
  account : String
  owner : String
  offer_sequence : Int
  fulfillment : String
deriving DecidableEq, Repr

inductive CreateError where
  | ledger (e : LedgerError)
  | noSequence
  | storage (e : SaveError)
deriving DecidableEq, Repr

structure CreateResult where
  escrow_tx_hash : String
  owner_address : String
  offer_sequence : Int
deriving DecidableEq, Repr

/-- Outcome of `create_milestone_escrow`: the returned value or the
exception, the store after the call, and the transaction submitted to
the ledger (`none` if `submit_and_wait` was never reached). -/
structure CreateOutcome where
  result : Except CreateError CreateResult
  store : Store
  submitted : Option EscrowCreateTx
deriving Repr

def create_milestone_escrow (employerAddress freelancer_address amount_drops : String)
    (secret : List Nat) (submit : EscrowCreateTx → Except LedgerError SubmitResult)
    (now : Int) (s : Store) : CreateOutcome :=
  let pair := generate_condition_pair secret
  let escrow_tx : EscrowCreateTx :=
    ⟨employerAddress, freelancer_address, amount_drops, pair.1⟩
  match submit escrow_tx with
  | .error e => ⟨.error (.ledger e), s, some escrow_tx⟩
  | .ok resp =>
    match resp.sequence.orElse (fun _ => resp.txJsonSequence) with
    | none => ⟨.error .noSequence, s, some escrow_tx⟩
    | some offer_sequence =>
      match save_milestone resp.hash employerAddress offer_sequence pair.2 now s with
      | .error e => ⟨.error (.storage e), s, some escrow_tx⟩
      | .ok s' =>
          ⟨.ok ⟨resp.hash, employerAddress, offer_sequence⟩, s', some escrow_tx⟩

/-- `approve_milestone` raises `RuntimeError("No stored fulfillment
found ...")` or propagates the ledger failure. -/
inductive ApproveError where
  | notReleasable
  | ledger (e : LedgerError)
deriving DecidableEq, Repr

/-- Outcome of `approve_milestone`: result or exception, the store after
the `mark_released` step, and the `EscrowFinish` submitted (`none` if no
ledger call was made). -/
structure ApproveOutcome where
  result : Except ApproveError String
  store : Store
  submitted : Option EscrowFinishTx
deriving Repr

def approve_milestone (employerAddress owner_address : String) (offer_sequence : Int)
    (submit : EscrowFinishTx → Except LedgerError SubmitResult) (now : Int)
    (sGet sMark : Store) : ApproveOutcome :=
  match get_fulfillment owner_address offer_sequence sGet with
  | none => ⟨.error .notReleasable, sMark, none⟩
  | some fulfillment_b64 =>
    -- `if not fulfillment_b64:` is Python truthiness: also `""` raises.
    if fulfillment_b64 = "" then ⟨.error .notReleasable, sMark, none⟩
    else
      let finish_tx : EscrowFinishTx :=
        ⟨employerAddress, owner_address, offer_sequence, fulfillment_b64⟩
      match submit finish_tx with
      | .error e => ⟨.error (.ledger e), sMark, some finish_tx⟩
      | .ok resp =>
          ⟨.ok resp.hash,
           mark_released owner_address offer_sequence resp.hash now sMark,
           some finish_tx⟩

/-! ### Helper lemmas -/

theorem matchesKey_iff (o : String) (q : Int) (r : Milestone) :
    matchesKey o q r = true ↔ r.owner_address = o ∧ r.offer_sequence = q := by
  simp [matchesKey]

/-- After `mark_released` for a key, no record with that key has status
`LOCKED`, so `get_fulfillment` finds nothing. -/
theorem get_fulfillment_mark_released (owner : String) (seq : Int)
    (txh : String) (now : Int) (s : Store) :
    get_fulfillment owner seq (mark_released owner seq txh now s) = none := by
  unfold get_fulfillment mark_released
  rw [Option.map_eq_none']
  rw [List.find?_eq_none]
  intro x hx
  simp only [List.mem_map] at hx
  obtain ⟨r, hr, rfl⟩ := hx
  by_cases h : matchesKey owner seq r
  · rw [if_pos h]
    simp [matchesKey] at h ⊢
  · rw [if_neg h]
    simp only [Bool.and_eq_true]
    intro hcon
    exact h hcon.1

/-! ### Claims -/

/-- Claim C2: `get_fulfillment` returns the stored fulfillment exactly
when a record with the key exists in status LOCKED (uniqueness of the
key is the UNIQUE-index invariant), and after `mark_released` for the
key a subsequent `get_fulfillment` returns not-found. -/
theorem get_fulfillment_iff_locked (owner f txh : String) (seq now : Int)
    (s : Store) (hu : UniqueKeys s) :
    (get_fulfillment owner seq s = some f ↔
      ∃ r ∈ s, matchesKey owner seq r ∧ r.status = "LOCKED" ∧ r.fulfillment_b64 = f) ∧
    get_fulfillment owner seq (mark_released owner seq txh now s) = none := by
  refine ⟨⟨?_, ?_⟩, get_fulfillment_mark_released owner seq txh now s⟩
  · intro h
    unfold get_fulfillment at h
    rw [Option.map_eq_some'] at h
    obtain ⟨r, hfind, hf⟩ := h
    have hp := List.find?_some hfind
    have hm := List.mem_of_find?_eq_some hfind
    rw [Bool.and_eq_true] at hp
    obtain ⟨hk, hs⟩ := hp
    rw [beq_iff_eq] at hs
    exact ⟨r, hm, hk, hs, hf⟩
  · rintro ⟨r, hm, hk, hs, hf⟩
    unfold get_fulfillment
    have hsome : (s.find? fun r => matchesKey owner seq r && r.status == "LOCKED").isSome := by
      rw [List.find?_isSome]
      exact ⟨r, hm, by rw [Bool.and_eq_true, beq_iff_eq]; exact ⟨hk, hs⟩⟩
    obtain ⟨r', hfind⟩ := Option.isSome_iff_exists.mp hsome
    have hp' := List.find?_some hfind
    have hm' := List.mem_of_find?_eq_some hfind
    rw [Bool.and_eq_true] at hp'
    obtain ⟨hk', _⟩ := hp'
    have hrr : r' = r := by
      by_contra hne
      have hsymm : Symmetric (fun a b : Milestone =>
          ¬(a.owner_address = b.owner_address ∧ a.offer_sequence = b.offer_sequence)) :=
        fun a b hab hc => hab ⟨hc.1.symm, hc.2.symm⟩
      have hdist := hu.forall hsymm hm' hm hne
      obtain ⟨ho', hq'⟩ := (matchesKey_iff owner seq r').mp hk'
      obtain ⟨ho, hq⟩ := (matchesKey_iff owner seq r).mp hk
      exact hdist ⟨ho'.trans ho.symm, hq'.trans hq.symm⟩
    rw [hfind, hrr]
    simpa using hf

/-- Claim C2 witness at a concrete store. -/
theorem get_fulfillment_iff_locked_witness :
    (get_fulfillment "rOWNER1" 5
        [⟨"H1", "rOWNER1", 5, "FULF", "LOCKED", 100, none, none⟩] = some "FULF" ↔
      ∃ r ∈ [(⟨"H1", "rOWNER1", 5, "FULF", "LOCKED", 100, none, none⟩ : Milestone)],
        matchesKey "rOWNER1" 5 r ∧ r.status = "LOCKED" ∧ r.fulfillment_b64 = "FULF") ∧
    get_fulfillment "rOWNER1" 5
      (mark_released "rOWNER1" 5 "R2" 300
        [⟨"H1", "rOWNER1", 5, "FULF", "LOCKED", 100, none, none⟩]) = none :=
  get_fulfillment_iff_locked "rOWNER1" "FULF" "R2" 5 300
    [⟨"H1", "rOWNER1", 5, "FULF", "LOCKED", 100, none, none⟩]
    (List.pairwise_singleton _ _)

/-- Claim C5: when `get_fulfillment` returns not-found,
`approve_milestone` raises `RuntimeError` (NotReleasable) before any
ledger call (`submitted = none`) and leaves the store unchanged; in
particular this is the outcome of a second approval after a successful
release, whose `get`-time store is `mark_released` of some store. -/
theorem approve_milestone_not_releasable (employerAddress owner txh : String)
    (seq : Int) (submit : EscrowFinishTx → Except LedgerError SubmitResult)
    (now now' : Int) (sGet sMark s' sMark' : Store)
    (h : get_fulfillment owner seq sGet = none) :
    approve_milestone employerAddress owner seq submit now sGet sMark =
      ⟨.error .notReleasable, sMark, none⟩ ∧
    approve_milestone employerAddress owner seq submit now
        (mark_released owner seq txh now' s') sMark' =
      ⟨.error .notReleasable, sMark', none⟩ := by
  constructor
  · unfold approve_milestone
    rw [h]
  · unfold approve_milestone
    rw [get_fulfillment_mark_released owner seq txh now' s']

/-- Claim C5 witness: unknown key in an empty store, and a re-approval
after a release. -/
theorem approve_milestone_not_releasable_witness :
    approve_milestone "rEMP" "rOWNER1" 5 (fun _ => .ok ⟨"H2", none, none⟩) 300 [] [] =
      ⟨.error .notReleasable, [], none⟩ ∧
    approve_milestone "rEMP" "rOWNER1" 5 (fun _ => .ok ⟨"H2", none, none⟩) 300
        (mark_released "rOWNER1" 5 "R1" 200
          [⟨"H1", "rOWNER1", 5, "FULF", "LOCKED", 100, none, none⟩])
        (mark_released "rOWNER1" 5 "R1" 200
          [⟨"H1", "rOWNER1", 5, "FULF", "LOCKED", 100, none, none⟩]) =
      ⟨.error .notReleasable,
       mark_released "rOWNER1" 5 "R1" 200
         [⟨"H1", "rOWNER1", 5, "FULF", "LOCKED", 100, none, none⟩], none⟩ :=
  approve_milestone_not_releasable "rEMP" "rOWNER1" "R1" 5
    (fun _ => .ok ⟨"H2", none, none⟩) 300 200 [] []
    [⟨"H1", "rOWNER1", 5, "FULF", "LOCKED", 100, none, none⟩]
    (mark_released "rOWNER1" 5 "R1" 200
      [⟨"H1", "rOWNER1", 5, "FULF", "LOCKED", 100, none, none⟩]) rfl

/-- Claim C6: inserting a record whose `(owner_address, offer_sequence)`
already exists hits the UNIQUE index and fails; no new store is
committed (the connection rolls back), so the existing record and the
rest of the store are unchanged. -/
theorem save_milestone_duplicate (h o f : String) (seq now : Int) (s : Store)
    (r : Milestone) (hr : r ∈ s)
    (hk : r.owner_address = o ∧ r.offer_sequence = seq) :
    save_milestone h o seq f now s = .error .duplicateKey := by
  unfold save_milestone
  rw [if_pos]
  rw [List.any_eq_true]
  exact ⟨r, hr, (matchesKey_iff o seq r).mpr hk⟩

/-- Claim C6 witness: duplicate key in a one-record store. -/
theorem save_milestone_duplicate_witness :
    save_milestone "H9" "rOWNER1" 5 "FULF2" 400
      [⟨"H1", "rOWNER1", 5, "FULF", "LOCKED", 100, none, none⟩] =
      .error .duplicateKey :=
  save_milestone_duplicate "H9" "rOWNER1" "FULF2" 5 400
    [⟨"H1", "rOWNER1", 5, "FULF", "LOCKED", 100, none, none⟩]
    ⟨"H1", "rOWNER1", 5, "FULF", "LOCKED", 100, none, none⟩
    (by simp) ⟨rfl, rfl⟩

/-- Claim C9: `list_milestones` returns one summary per stored record
(a permutation of the summaries, hence the same length, unbounded) in
descending `created_at` order. -/
theorem list_milestones_spec (s : Store) :
    List.Pairwise (fun a b : MilestoneSummary => b.created_at ≤ a.created_at)
      (list_milestones s) ∧
    (list_milestones s).Perm (s.map summarize) ∧
    (list_milestones s).length = s.length := by
  have hperm : (list_milestones s).Perm (s.map summarize) :=
    List.mergeSort_perm (s.map summarize) _
  refine ⟨?_, hperm, by rw [hperm.length_eq, List.length_map]⟩
  have hs := @List.sorted_mergeSort MilestoneSummary
    (fun a b : MilestoneSummary => decide (b.created_at ≤ a.created_at))
    (fun a b c hab hbc => by
      rw [decide_eq_true_eq] at *
      exact le_trans hbc hab)
    (fun a b => by
      rcases le_total b.created_at a.created_at with h | h <;> simp [h])
    (s.map summarize)
  exact hs.imp (fun hab => by rwa [decide_eq_true_eq] at hab)

/-- Claim C1 evaluation: the UPDATE in `mark_released` has no
`status = 'LOCKED'` condition and the function returns `None`, so a
record already RELEASED (here with `released_tx_hash = "R1"`,
`released_at = 200`) is re-stamped with the new hash and time instead
of being left unchanged. -/
theorem mark_released_restamps_released_record :
    mark_released "rOWNER1" 5 "R2" 300
      [⟨"H1", "rOWNER1", 5, "FULF", "RELEASED", 100, some "R1", some 200⟩] =
      [⟨"H1", "rOWNER1", 5, "FULF", "RELEASED", 100, some "R2", some 300⟩] ∧
    mark_released "rOWNER1" 5 "R2" 300
      [⟨"H1", "rOWNER1", 5, "FULF", "RELEASED", 100, some "R1", some 200⟩] ≠
      [⟨"H1", "rOWNER1", 5, "FULF", "RELEASED", 100, some "R1", some 200⟩] := by
  constructor
  · rfl
  · decide

/-- Claim C3 evaluation: with the record gone by `mark_released` time
(store `[]`, a concurrent release) but a LOCKED record at
`get_fulfillment` time, a successful submission yields a plain
`.ok "H2"`; the zero-row update is not detected — the result equals the
result of the race-free run, and `ApproveOutcome.result` has no
reconciliation-warning variant at all. -/
theorem approve_milestone_swallows_zero_row_update :
    (approve_milestone "rEMP" "rOWNER1" 5 (fun _ => .ok ⟨"H2", none, none⟩) 300
        [⟨"H1", "rOWNER1", 5, "FULF", "LOCKED", 100, none, none⟩] []).result =
      .ok "H2" ∧
    (approve_milestone "rEMP" "rOWNER1" 5 (fun _ => .ok ⟨"H2", none, none⟩) 300
        [⟨"H1", "rOWNER1", 5, "FULF", "LOCKED", 100, none, none⟩] []).store = [] ∧
    (approve_milestone "rEMP" "rOWNER1" 5 (fun _ => .ok ⟨"H2", none, none⟩) 300
        [⟨"H1", "rOWNER1", 5, "FULF", "LOCKED", 100, none, none⟩] []).result =
      (approve_milestone "rEMP" "rOWNER1" 5 (fun _ => .ok ⟨"H2", none, none⟩) 300
        [⟨"H1", "rOWNER1", 5, "FULF", "LOCKED", 100, none, none⟩]
        [⟨"H1", "rOWNER1", 5, "FULF", "LOCKED", 100, none, none⟩]).result :=
  ⟨rfl, rfl, rfl⟩

/-- Claim C4: when every ledger submission raises, `create_milestone_escrow`
returns the store unchanged (no `save_milestone`), `approve_milestone`
returns its store unchanged (no `mark_released`) — so the key's record,
LOCKED fulfillment included, is exactly as before and the release is
retryable — and both surface the ledger error (approve may instead have
failed earlier with NotReleasable, before any submission). -/
theorem ledger_failure_no_local_mutation
    (employerAddress freelancer_address amount_drops owner : String)
    (secret : List Nat)
    (submitC : EscrowCreateTx → Except LedgerError SubmitResult)
    (submitF : EscrowFinishTx → Except LedgerError SubmitResult)
    (eC eF : LedgerError) (seq now : Int) (s sGet sMark : Store)
    (hC : ∀ tx, submitC tx = .error eC) (hF : ∀ tx, submitF tx = .error eF) :
    (create_milestone_escrow employerAddress freelancer_address amount_drops
        secret submitC now s).store = s ∧
    (create_milestone_escrow employerAddress freelancer_address amount_drops
        secret submitC now s).result = .error (.ledger eC) ∧
    (approve_milestone employerAddress owner seq submitF now sGet sMark).store =
      sMark ∧
    ((approve_milestone employerAddress owner seq submitF now sGet sMark).result =
        .error .notReleasable ∨
     (approve_milestone employerAddress owner seq submitF now sGet sMark).result =
        .error (.ledger eF)) ∧
    get_fulfillment owner seq
        (approve_milestone employerAddress owner seq submitF now sGet sMark).store =
      get_fulfillment owner seq sMark := by
  have hc : create_milestone_escrow employerAddress freelancer_address amount_drops
      secret submitC now s =
      ⟨.error (.ledger eC), s,
       some ⟨employerAddress, freelancer_address, amount_drops,
             (generate_condition_pair secret).1⟩⟩ := by
    simp only [create_milestone_escrow, hC]
  have ha : (approve_milestone employerAddress owner seq submitF now sGet sMark).store =
      sMark ∧
      ((approve_milestone employerAddress owner seq submitF now sGet sMark).result =
          .error .notReleasable ∨
       (approve_milestone employerAddress owner seq submitF now sGet sMark).result =
          .error (.ledger eF)) := by
    unfold approve_milestone
    cases hg : get_fulfillment owner seq sGet with
    | none => exact ⟨rfl, Or.inl rfl⟩
    | some f =>
        dsimp only
        by_cases hf : f = ""
        · rw [if_pos hf]
          exact ⟨rfl, Or.inl rfl⟩
        · rw [if_neg hf]
          simp only [hF]
          exact ⟨trivial, Or.inr trivial⟩
  refine ⟨by rw [hc], by rw [hc], ha.1, ha.2, by rw [ha.1]⟩

/-- Claim C4 witness: concrete failing gateway, one-record store. -/
theorem ledger_failure_no_local_mutation_witness :
    (create_milestone_escrow "rEMP" "rFREE" "1000000" []
        (fun _ => .error (.submitFailed "net")) 300
        [⟨"H1", "rOWNER1", 5, "FULF", "LOCKED", 100, none, none⟩]).store =
      [⟨"H1", "rOWNER1", 5, "FULF", "LOCKED", 100, none, none⟩] ∧
    (create_milestone_escrow "rEMP" "rFREE" "1000000" []
        (fun _ => .error (.submitFailed "net")) 300
        [⟨"H1", "rOWNER1", 5, "FULF", "LOCKED", 100, none, none⟩]).result =
      .error (.ledger (.submitFailed "net")) ∧
    (approve_milestone "rEMP" "rOWNER1" 5
        (fun _ => .error (.submitFailed "net")) 300
        [⟨"H1", "rOWNER1", 5, "FULF", "LOCKED", 100, none, none⟩]
        [⟨"H1", "rOWNER1", 5, "FULF", "LOCKED", 100, none, none⟩]).store =
      [⟨"H1", "rOWNER1", 5, "FULF", "LOCKED", 100, none, none⟩] ∧
    ((approve_milestone "rEMP" "rOWNER1" 5
        (fun _ => .error (.submitFailed "net")) 300
        [⟨"H1", "rOWNER1", 5, "FULF", "LOCKED", 100, none, none⟩]
        [⟨"H1", "rOWNER1", 5, "FULF", "LOCKED", 100, none, none⟩]).result =
        .error .notReleasable ∨
     (approve_milestone "rEMP" "rOWNER1" 5
        (fun _ => .error (.submitFailed "net")) 300
        [⟨"H1", "rOWNER1", 5, "FULF", "LOCKED", 100, none, none⟩]
        [⟨"H1", "rOWNER1", 5, "FULF", "LOCKED", 100, none, none⟩]).result =
        .error (.ledger (.submitFailed "net"))) ∧
    get_fulfillment "rOWNER1" 5
        (approve_milestone "rEMP" "rOWNER1" 5
          (fun _ => .error (.submitFailed "net")) 300
          [⟨"H1", "rOWNER1", 5, "FULF", "LOCKED", 100, none, none⟩]
          [⟨"H1", "rOWNER1", 5, "FULF", "LOCKED", 100, none, none⟩]).store =
      get_fulfillment "rOWNER1" 5
        [⟨"H1", "rOWNER1", 5, "FULF", "LOCKED", 100, none, none⟩] :=
  ledger_failure_no_local_mutation "rEMP" "rFREE" "1000000" "rOWNER1" []
    (fun _ => .error (.submitFailed "net")) (fun _ => .error (.submitFailed "net"))
    (.submitFailed "net") (.submitFailed "net") 5 300
    [⟨"H1", "rOWNER1", 5, "FULF", "LOCKED", 100, none, none⟩]
    [⟨"H1", "rOWNER1", 5, "FULF", "LOCKED", 100, none, none⟩]
    [⟨"H1", "rOWNER1", 5, "FULF", "LOCKED", 100, none, none⟩]
    (fun _ => rfl) (fun _ => rfl)

/-- Claim C7: for a 32-byte secret, the generated pair satisfies
`SHA256(decodeBase64(fulfillment)) = decodeBase64(condition)` and the
decoded secret is again 32 bytes. -/
theorem generate_condition_pair_hash (secret : List Nat)
    (hlen : secret.length = 32) (hbytes : ∀ x ∈ secret, x < 256) :
    sha256 (b64decode (generate_condition_pair secret).2) =
      b64decode (generate_condition_pair secret).1 ∧
    (b64decode (generate_condition_pair secret).2).length = 32 := by
  have h1 : (generate_condition_pair secret).1 = b64encode (sha256 secret) := rfl
  have h2 : (generate_condition_pair secret).2 = b64encode secret := rfl
  rw [h1, h2, b64decode_b64encode secret hbytes,
      b64decode_b64encode (sha256 secret) (sha256_bytes_lt secret)]
  exact ⟨rfl, hlen⟩

/-- Claim C7 witness at the all-zero 32-byte secret. -/
theorem generate_condition_pair_hash_witness :
    sha256 (b64decode (generate_condition_pair (List.replicate 32 0)).2) =
      b64decode (generate_condition_pair (List.replicate 32 0)).1 ∧
    (b64decode (generate_condition_pair (List.replicate 32 0)).2).length = 32 :=
  generate_condition_pair_hash (List.replicate 32 0) (by decide) (by decide)

/-- Claim C8: the escrow-creation transaction submitted to the ledger
is exactly `(account, destination, amount, condition)` — it carries the
condition and is independent of the fulfillment — and `list_milestones`
output depends only on the fulfillment-free summaries: two stores that
agree outside the `fulfillment_b64` column list identically. -/
theorem fulfillment_not_exposed
    (employerAddress freelancer_address amount_drops : String) (secret : List Nat)
    (submit : EscrowCreateTx → Except LedgerError SubmitResult) (now : Int)
    (s s1 s2 : Store) (hagree : s1.map summarize = s2.map summarize) :
    (create_milestone_escrow employerAddress freelancer_address amount_drops
        secret submit now s).submitted =
      some ⟨employerAddress, freelancer_address, amount_drops,
            (generate_condition_pair secret).1⟩ ∧
    list_milestones s1 = list_milestones s2 := by
  constructor
  · simp only [create_milestone_escrow]
    split
    · rfl
    · split
      · rfl
      · split <;> rfl
  · unfold list_milestones
    rw [hagree]

/-- Claim C8 witness: stores differing only in the stored fulfillment
produce the same listing. -/
theorem fulfillment_not_exposed_witness :
    (create_milestone_escrow "rEMP" "rFREE" "1000000" []
        (fun _ => .ok ⟨"H1", some 5, none⟩) 300 []).submitted =
      some ⟨"rEMP", "rFREE", "1000000", (generate_condition_pair []).1⟩ ∧
    list_milestones [⟨"H1", "rOWNER1", 5, "FULF", "LOCKED", 100, none, none⟩] =
      list_milestones [⟨"H1", "rOWNER1", 5, "OTHERSECRET", "LOCKED", 100, none, none⟩] :=
  fulfillment_not_exposed "rEMP" "rFREE" "1000000" []
    (fun _ => .ok ⟨"H1", some 5, none⟩) 300 []
    [⟨"H1", "rOWNER1", 5, "FULF", "LOCKED", 100, none, none⟩]
    [⟨"H1", "rOWNER1", 5, "OTHERSECRET", "LOCKED", 100, none, none⟩] rfl

/-- Claim C10: `mark_released` preserves the store's length; a record
whose key does not match is unchanged, and a matching record keeps its
`escrow_tx_hash`, `owner_address`, `offer_sequence`, `fulfillment_b64`
and `created_at`, with only `status`, `released_tx_hash` and
`released_at` rewritten. -/
theorem mark_released_frame (owner txh : String) (seq now : Int)
    (s : Store) (i : Nat) (d : Milestone) (hi : i < s.length) :
    (mark_released owner seq txh now s).length = s.length ∧
    (matchesKey owner seq (s.getD i d) = false →
      (mark_released owner seq txh now s).getD i d = s.getD i d) ∧
    (matchesKey owner seq (s.getD i d) = true →
      ((mark_released owner seq txh now s).getD i d).escrow_tx_hash =
        (s.getD i d).escrow_tx_hash ∧
      ((mark_released owner seq txh now s).getD i d).owner_address =
        (s.getD i d).owner_address ∧
      ((mark_released owner seq txh now s).getD i d).offer_sequence =
        (s.getD i d).offer_sequence ∧
      ((mark_released owner seq txh now s).getD i d).fulfillment_b64 =
        (s.getD i d).fulfillment_b64 ∧
      ((mark_released owner seq txh now s).getD i d).created_at =
        (s.getD i d).created_at ∧
      ((mark_released owner seq txh now s).getD i d).status = "RELEASED" ∧
      ((mark_released owner seq txh now s).getD i d).released_tx_hash = some txh ∧
      ((mark_released owner seq txh now s).getD i d).released_at = some now) := by
  have hlen : (mark_released owner seq txh now s).length = s.length := by
    unfold mark_released
    rw [List.length_map]
  have hig : i < (mark_released owner seq txh now s).length := by
    rw [hlen]; exact hi
  have hsd : s.getD i d = s[i] := List.getD_eq_getElem s d hi
  have hgd : (mark_released owner seq txh now s).getD i d =
      if matchesKey owner seq s[i] = true then
        { s[i] with status := "RELEASED", released_tx_hash := some txh,
                    released_at := some now }
      else s[i] := by
    rw [List.getD_eq_getElem _ _ hig]
    show (List.map _ s)[i] = _
    rw [List.getElem_map]
  refine ⟨hlen, ?_, ?_⟩
  · intro hk
    rw [hsd] at hk ⊢
    rw [hgd, if_neg]
    simp [hk]
  · intro hk
    rw [hsd] at hk ⊢
    rw [hgd, if_pos hk]
    exact ⟨rfl, rfl, rfl, rfl, rfl, rfl, rfl, rfl⟩

/-- Claim C10 witness at a one-record store with a matching key. -/
theorem mark_released_frame_witness :
    (mark_released "rOWNER1" 5 "R2" 300
      [⟨"H1", "rOWNER1", 5, "FULF", "LOCKED", 100, none, none⟩]).length =
      ([⟨"H1", "rOWNER1", 5, "FULF", "LOCKED", 100, none, none⟩] : Store).length ∧
    (matchesKey "rOWNER1" 5
        (([⟨"H1", "rOWNER1", 5, "FULF", "LOCKED", 100, none, none⟩] : Store).getD 0
          ⟨"D", "D", 0, "D", "D", 0, none, none⟩) = false →
      (mark_released "rOWNER1" 5 "R2" 300
        [⟨"H1", "rOWNER1", 5, "FULF", "LOCKED", 100, none, none⟩]).getD 0
          ⟨"D", "D", 0, "D", "D", 0, none, none⟩ =
        ([⟨"H1", "rOWNER1", 5, "FULF", "LOCKED", 100, none, none⟩] : Store).getD 0
          ⟨"D", "D", 0, "D", "D", 0, none, none⟩) ∧
    (matchesKey "rOWNER1" 5
        (([⟨"H1", "rOWNER1", 5, "FULF", "LOCKED", 100, none, none⟩] : Store).getD 0
          ⟨"D", "D", 0, "D", "D", 0, none, none⟩) = true →
      ((mark_released "rOWNER1" 5 "R2" 300
        [⟨"H1", "rOWNER1", 5, "FULF", "LOCKED", 100, none, none⟩]).getD 0
          ⟨"D", "D", 0, "D", "D", 0, none, none⟩).escrow_tx_hash =
        (([⟨"H1", "rOWNER1", 5, "FULF", "LOCKED", 100, none, none⟩] : Store).getD 0
          ⟨"D", "D", 0, "D", "D", 0, none, none⟩).escrow_tx_hash ∧
      ((mark_released "rOWNER1" 5 "R2" 300
        [⟨"H1", "rOWNER1", 5, "FULF", "LOCKED", 100, none, none⟩]).getD 0
          ⟨"D", "D", 0, "D", "D", 0, none, none⟩).owner_address =
        (([⟨"H1", "rOWNER1", 5, "FULF", "LOCKED", 100, none, none⟩] : Store).getD 0
          ⟨"D", "D", 0, "D", "D", 0, none, none⟩).owner_address ∧
      ((mark_released "rOWNER1" 5 "R2" 300
        [⟨"H1", "rOWNER1", 5, "FULF", "LOCKED", 100, none, none⟩]).getD 0
          ⟨"D", "D", 0, "D", "D", 0, none, none⟩).offer_sequence =
        (([⟨"H1", "rOWNER1", 5, "FULF", "LOCKED", 100, none, none⟩] : Store).getD 0
          ⟨"D", "D", 0, "D", "D", 0, none, none⟩).offer_sequence ∧
      ((mark_released "rOWNER1" 5 "R2" 300
        [⟨"H1", "rOWNER1", 5, "FULF", "LOCKED", 100, none, none⟩]).getD 0
          ⟨"D", "D", 0, "D", "D", 0, none, none⟩).fulfillment_b64 =
        (([⟨"H1", "rOWNER1", 5, "FULF", "LOCKED", 100, none, none⟩] : Store).getD 0
          ⟨"D", "D", 0, "D", "D", 0, none, none⟩).fulfillment_b64 ∧
      ((mark_released "rOWNER1" 5 "R2" 300
        [⟨"H1", "rOWNER1", 5, "FULF", "LOCKED", 100, none, none⟩]).getD 0
          ⟨"D", "D", 0, "D", "D", 0, none, none⟩).created_at =
        (([⟨"H1", "rOWNER1", 5, "FULF", "LOCKED", 100, none, none⟩] : Store).getD 0
          ⟨"D", "D", 0, "D", "D", 0, none, none⟩).created_at ∧
      ((mark_released "rOWNER1" 5 "R2" 300
        [⟨"H1", "rOWNER1", 5, "FULF", "LOCKED", 100, none, none⟩]).getD 0
          ⟨"D", "D", 0, "D", "D", 0, none, none⟩).status = "RELEASED" ∧
      ((mark_released "rOWNER1" 5 "R2" 300
        [⟨"H1", "rOWNER1", 5, "FULF", "LOCKED", 100, none, none⟩]).getD 0
          ⟨"D", "D", 0, "D", "D", 0, none, none⟩).released_tx_hash = some "R2" ∧
      ((mark_released "rOWNER1" 5 "R2" 300
        [⟨"H1", "rOWNER1", 5, "FULF", "LOCKED", 100, none, none⟩]).getD 0
          ⟨"D", "D", 0, "D", "D", 0, none, none⟩).released_at = some 300) :=
  mark_released_frame "rOWNER1" "R2" 5 300
    [⟨"H1", "rOWNER1", 5, "FULF", "LOCKED", 100, none, none⟩] 0
    ⟨"D", "D", 0, "D", "D", 0, none, none⟩ (by decide)

end Fintech
